import Mathlib

/-!
Shallow embedding of the `poly` trading bot core
(`src/cpp-bot/src/engine/trading_engine.cpp`,
`src/cpp-bot/src/network/websocket_client.cpp`), with theorems checking the
natural-language specification against the code.

Modelling conventions:
* C++ `double` is modelled by `ℚ` (the spec's design notes treat monetary
  math as real-valued with a 1e-9 tolerance; the expression trees are
  translated verbatim).
* `std::chrono::system_clock::time_point` is modelled by `ℤ` (UNIX epoch
  seconds); the "current time" is passed explicitly to each operation.
* `std::unordered_map<std::string, MarketState>` is modelled by an
  association list; the bot holds at most one market at a time.
* The Polymarket client and the venue responses are modelled as explicit
  oracle parameters (`OrderResult`, `BalanceResult`); `has_client` mirrors
  the nullability of `polymarket_client_`.
-/

namespace Poly

/-- `OrderbookSnapshot` from `trading_engine.hpp`: bid and ask levels as
(price, size) pairs plus a timestamp. -/
structure OrderbookSnapshot where
  bids : List (ℚ × ℚ)
  asks : List (ℚ × ℚ)
  timestamp : ℤ
deriving Repr, DecidableEq

/-- The default-constructed (empty) orderbook, `OrderbookSnapshot{}`. -/
def emptyBook : OrderbookSnapshot := { bids := [], asks := [], timestamp := 0 }

/-- `Trade` from `trading_engine.hpp`. -/
structure Trade where
  id : String
  market_slug : String
  leg : ℤ
  side : String
  token_id : String
  shares : ℚ
  price : ℚ
  cost : ℚ
  fee : ℚ
  pnl : ℚ
  is_live : Bool
  timestamp : ℤ
deriving Repr, DecidableEq

/-- `Config` from `trading_engine.hpp` with its in-source default values. -/
structure Config where
  entry_threshold : ℚ := 35/100
  shares : ℤ := 10
  dca_enabled : Bool := true
  dca_levels : List ℚ := [30/100, 25/100, 20/100, 15/100]
  dca_multiplier : ℚ := 3/2
  sum_target : ℚ := 99/100
  breakeven_enabled : Bool := true
  move : ℚ := 36/100
  window_min : ℤ := 15
  dump_window_sec : ℤ := 120
deriving Repr, DecidableEq

/-- `TradingMode` from `trading_engine.hpp`. -/
inductive TradingMode where
  | PAPER
  | LIVE
deriving Repr, DecidableEq

/-- `CycleStatus` from `trading_engine.hpp` with its default member values. -/
structure CycleStatus where
  active : Bool := false
  status : String := "pending"
  leg1_side : String := ""
  leg1_price : ℚ := 0
  leg1_shares : ℚ := 0
  leg2_side : String := ""
  leg2_price : ℚ := 0
  leg2_shares : ℚ := 0
  total_cost : ℚ := 0
  pnl : ℚ := 0
deriving Repr, DecidableEq

/-- `TradingEngine::MarketState`. -/
structure MarketState where
  slug : String
  up_token_id : String
  down_token_id : String
  up_orderbook : OrderbookSnapshot
  down_orderbook : OrderbookSnapshot
  last_update : ℤ
deriving Repr, DecidableEq

/-- `TradingEngine::Position`. -/
structure Position where
  market_slug : String
  side : String
  shares : ℚ
  avg_cost : ℚ
  total_cost : ℚ
  trades : List Trade
deriving Repr, DecidableEq

/-- The mutable state of a `TradingEngine`, one field per data member of the
C++ class (the mutex, client pointer and async writer are replaced by the
`has_client` flag; times are epoch seconds). -/
structure EngineState where
  config : Config := {}
  running : Bool := false
  cash : ℚ := 1000
  realized_pnl : ℚ := 0
  trading_mode : TradingMode := TradingMode.PAPER
  has_client : Bool := false
  markets : List (String × MarketState) := []
  active_market_slug : String := ""
  current_position : Option Position := none
  trade_history : List Trade := []
  last_completed_cycle : CycleStatus := {}
  last_cycle_complete_time : ℤ := 0
deriving Repr, DecidableEq

/-- Lookup in the association list modelling `std::unordered_map`. -/
def assoc_find (l : List (String × MarketState)) (k : String) :
    Option MarketState :=
  match l with
  | [] => none
  | (k0, v) :: rest => if k0 = k then some v else assoc_find rest k

/-- `markets_[slug] = v` on the association list: replace an existing entry
or append a fresh one. -/
def assoc_set (l : List (String × MarketState)) (k : String)
    (v : MarketState) : List (String × MarketState) :=
  match l with
  | [] => [(k, v)]
  | (k0, v0) :: rest =>
    if k0 = k then (k, v) :: rest else (k0, v0) :: assoc_set rest k v

/-- `TradingEngine::set_market` (`trading_engine.cpp:42-85`): on a slug
change clear the market map and abandon any open cycle (book its
`total_cost` as realized loss, freeze an `incomplete` cycle record); then
unconditionally install a fresh `MarketState` for the slug. -/
def set_market (now : ℤ) (slug up_token down_token : String)
    (s : EngineState) : EngineState :=
  let s1 :=
    if s.active_market_slug ≠ slug then
      let s0 := { s with markets := ([] : List (String × MarketState)) }
      match s.current_position with
      | some pos =>
        { s0 with
          last_completed_cycle :=
            { s0.last_completed_cycle with
              active := false
              status := "incomplete"
              leg1_side := pos.side
              leg1_price := pos.avg_cost
              leg1_shares := pos.shares
              total_cost := pos.total_cost
              pnl := -pos.total_cost }
          realized_pnl := s0.realized_pnl - pos.total_cost
          current_position := none }
      | none => s0
    else s
  { s1 with
    active_market_slug := slug
    markets := assoc_set s1.markets slug
      { slug := slug
        up_token_id := up_token
        down_token_id := down_token
        up_orderbook := emptyBook
        down_orderbook := emptyBook
        last_update := now } }

/-- `TradingEngine::get_best_bid` (`trading_engine.cpp:561-569`): 0.0 on an
empty bid list, else the maximum of all bid prices, computed by a scan
initialised at the first level's price. -/
def get_best_bid (book : OrderbookSnapshot) : ℚ :=
  match book.bids with
  | [] => 0
  | b :: rest =>
    (b :: rest).foldl (fun m level => if level.1 > m then level.1 else m) b.1

/-- `TradingEngine::get_best_ask` (`trading_engine.cpp:571-579`): 1.0 on an
empty ask list, else the minimum of all ask prices, computed by a scan
initialised at the first level's price. -/
def get_best_ask (book : OrderbookSnapshot) : ℚ :=
  match book.asks with
  | [] => 1
  | a :: rest =>
    (a :: rest).foldl (fun m level => if level.1 < m then level.1 else m) a.1

/-- `TradingEngine::should_enter` (`trading_engine.cpp:357-379`): UP is
checked first against `config_.move`, then DOWN; returns the chosen side
and its best ask. -/
def should_enter (cfg : Config) (market : MarketState) :
    Option (String × ℚ) :=
  let up_ask := get_best_ask market.up_orderbook
  let down_ask := get_best_ask market.down_orderbook
  if up_ask < cfg.move then some ("UP", up_ask)
  else if down_ask < cfg.move then some ("DOWN", down_ask)
  else none

/-- `TradingEngine::should_hedge` (`trading_engine.cpp:381-401`): hedge at
the opposite side's best ask when `avg_cost + opposite_ask ≤ sum_target`. -/
def should_hedge (cfg : Config) (pos : Position) (market : MarketState) :
    Option ℚ :=
  let opposite_book :=
    if pos.side = "UP" then market.down_orderbook else market.up_orderbook
  let opposite_ask := get_best_ask opposite_book
  if pos.avg_cost + opposite_ask ≤ cfg.sum_target then some opposite_ask
  else none

/-- `TradingEngine::execute_paper_trade` (`trading_engine.cpp:418-478`).
The trade is built with `pnl = 0`, pushed into `trade_history_` and its
cost deducted from cash; only afterwards, on leg 2, is the *local* copy's
`pnl` set and the settlement payout `+shares` credited — exactly as the
C++ mutates the local `trade` after `push_back` copied it. Returns the
local trade and the new state. -/
def execute_paper_trade (now : ℤ) (market_slug side token_id : String)
    (shares price : ℚ) (s : EngineState) : Trade × EngineState :=
  let trade : Trade :=
    { id := "paper_" ++ toString now
      market_slug := market_slug
      leg := if s.current_position.isSome then 2 else 1
      side := side
      token_id := token_id
      shares := shares
      price := price
      cost := shares * price
      fee := 0
      pnl := 0
      is_live := false
      timestamp := now }
  let s1 := { s with
    trade_history := s.trade_history ++ [trade]
    cash := s.cash - trade.cost }
  match s.current_position with
  | some pos =>
    if trade.leg = 2 then
      let profit := (1 - pos.avg_cost - trade.price) * shares
      ({ trade with pnl := profit },
       { s1 with
         realized_pnl := s1.realized_pnl + profit
         cash := s1.cash + shares })
    else (trade, s1)
  | none => (trade, s1)

/-- The parsed JSON reply of the out-of-process order executor
(`PolymarketClient::place_order`). -/
structure OrderResult where
  success : Bool := false
  order_id : String := ""
  price : ℚ := 0
  error : String := ""
deriving Repr, DecidableEq

/-- `TradingEngine::execute_live_trade` (`trading_engine.cpp:480-559`),
with the venue's reply passed in as `result`. Fails (`none`) without a
client or on an unsuccessful order; otherwise books the trade with the
venue fill price when nonzero, with the same
push-then-mutate-the-local-copy accounting as the paper path. -/
def execute_live_trade (now : ℤ) (result : OrderResult)
    (market_slug side token_id : String) (shares price : ℚ)
    (s : EngineState) : Option Trade × EngineState :=
  if s.has_client = false then (none, s)
  else if result.success = false then (none, s)
  else
    let eff_price := if result.price > 0 then result.price else price
    let trade : Trade :=
      { id := if result.order_id = "" then "live_" ++ toString now
              else result.order_id
        market_slug := market_slug
        leg := if s.current_position.isSome then 2 else 1
        side := side
        token_id := token_id
        shares := shares
        price := eff_price
        cost := shares * eff_price
        fee := 0
        pnl := 0
        is_live := true
        timestamp := now }
    let s1 := { s with
      trade_history := s.trade_history ++ [trade]
      cash := s.cash - trade.cost }
    match s.current_position with
    | some pos =>
      if trade.leg = 2 then
        let profit := (1 - pos.avg_cost - trade.price) * shares
        (some { trade with pnl := profit },
         { s1 with
           realized_pnl := s1.realized_pnl + profit
           cash := s1.cash + shares })
      else (some trade, s1)
    | none => (some trade, s1)

/-- `TradingEngine::execute_trade` (`trading_engine.cpp:403-416`): route to
the live path only when the mode is LIVE *and* a client is configured;
otherwise fall through to the paper path. -/
def execute_trade (now : ℤ) (result : OrderResult)
    (market_slug side token_id : String) (shares price : ℚ)
    (s : EngineState) : Option Trade × EngineState :=
  if s.trading_mode = TradingMode.LIVE ∧ s.has_client = true then
    execute_live_trade now result market_slug side token_id shares price s
  else
    let r := execute_paper_trade now market_slug side token_id shares price s
    (some r.1, r.2)

/-- Digits to a natural number (most significant first). -/
def digitsToNat (ds : List Char) : ℕ :=
  ds.foldl (fun acc c => acc * 10 + (c.toNat - Char.toNat '0')) 0

/-- Model of `std::stoll` as used on the slug tail: the value of the
longest digit prefix, or 0 when there is none (the exception is swallowed
and `market_start_time` keeps its initial 0). The tail after the *last*
dash can contain no sign character. -/
def stoll_digits (cs : List Char) : ℤ :=
  let ds := cs.takeWhile Char.isDigit
  if ds.isEmpty then 0 else (digitsToNat ds : ℤ)

/-- `rfind('-')` followed by `substr(last_dash + 1)`: the character suffix
after the last dash, or `none` when the slug has no dash. -/
def after_last_dash : List Char → Option (List Char)
  | [] => none
  | c :: rest =>
    match after_last_dash rest with
    | some tail => some tail
    | none => if c = '-' then some rest else none

/-- Slug-start extraction of `process_market`
(`trading_engine.cpp:227-232`): take the substring after the last `'-'`
and `stoll` it; 0 when the slug has no dash or no leading digits there. -/
def slug_start_time (slug : String) : ℤ :=
  match after_last_dash slug.data with
  | none => 0
  | some tail => stoll_digits tail

/-- `TradingEngine::process_market` (`trading_engine.cpp:221-355`): gate on
the trading window computed from the slug-encoded start; then either try an
entry (`should_enter`, cooldown of 5 s after the last completed cycle) or,
with an open position on this market, try the hedge (`should_hedge`),
booking the completed cycle. `res` is the venue reply used if the live
path fires inside `execute_trade`. -/
def process_market (now : ℤ) (res : OrderResult) (market_slug : String)
    (s : EngineState) : EngineState :=
  match assoc_find s.markets market_slug with
  | none => s
  | some market =>
    let market_start_time := slug_start_time market_slug
    let time_left : ℤ := 900 - (now - market_start_time)
    if time_left < 0 ∨ time_left > s.config.dump_window_sec then s
    else
      match s.current_position with
      | none =>
        if now - s.last_cycle_complete_time < 5 then s
        else
          match should_enter s.config market with
          | none => s
          | some (side, price) =>
            let token :=
              if side = "UP" then market.up_token_id
              else market.down_token_id
            let r := execute_trade now res market_slug side token
              (s.config.shares : ℚ) price s
            match r.1 with
            | none => r.2
            | some trade =>
              { r.2 with
                current_position := some
                  { market_slug := market_slug
                    side := side
                    shares := trade.shares
                    avg_cost := trade.price
                    total_cost := trade.cost
                    trades := [trade] } }
      | some pos =>
        if pos.market_slug = market_slug then
          match should_hedge s.config pos market with
          | none => s
          | some hedge_price =>
            let opposite_side := if pos.side = "UP" then "DOWN" else "UP"
            let token :=
              if opposite_side = "UP" then market.up_token_id
              else market.down_token_id
            let r := execute_trade now res market_slug opposite_side token
              pos.shares hedge_price s
            match r.1 with
            | none => r.2
            | some trade =>
              let profit := (1 - pos.avg_cost - hedge_price) * pos.shares
              { r.2 with
                last_completed_cycle :=
                  { active := false
                    status := "complete"
                    leg1_side := pos.side
                    leg1_price := pos.avg_cost
                    leg1_shares := pos.shares
                    leg2_side := opposite_side
                    leg2_price := hedge_price
                    leg2_shares := pos.shares
                    total_cost := pos.total_cost + trade.cost
                    pnl := profit }
                current_position := none
                last_cycle_complete_time := now }
        else s

/-- The token-matching scan of `on_orderbook_update`
(`trading_engine.cpp:200-213`): walk the market map; at the first market
whose `up_token_id` or `down_token_id` matches, install the snapshot on
that side, stamp `last_update`, and stop. Returns the matched slug (if
any) and the updated map. -/
def apply_token_update (now : ℤ) (token_id : String)
    (snapshot : OrderbookSnapshot) :
    List (String × MarketState) → Option String × List (String × MarketState)
  | [] => (none, [])
  | (slug, market) :: rest =>
    if market.up_token_id = token_id then
      (some slug,
       (slug, { market with up_orderbook := snapshot, last_update := now })
         :: rest)
    else if market.down_token_id = token_id then
      (some slug,
       (slug, { market with down_orderbook := snapshot, last_update := now })
         :: rest)
    else
      let r := apply_token_update now token_id snapshot rest
      (r.1, (slug, market) :: r.2)

/-- `TradingEngine::on_orderbook_update` (`trading_engine.cpp:189-219`):
no-op while not running; otherwise install the snapshot on the owning
market's side and run `process_market` on it. -/
def on_orderbook_update (now : ℤ) (res : OrderResult) (token_id : String)
    (snapshot : OrderbookSnapshot) (s : EngineState) : EngineState :=
  if s.running = false then s
  else
    let r := apply_token_update now token_id snapshot s.markets
    let s1 := { s with markets := r.2 }
    match r.1 with
    | none => s1
    | some slug => process_market now res slug s1

/-- The parsed reply of `PolymarketClient::get_balance`. -/
structure BalanceResult where
  success : Bool := false
  balance : ℚ := 0
  error : String := ""
deriving Repr, DecidableEq

/-- `TradingEngine::set_trading_mode` (`trading_engine.cpp:625-657`).
`env_key` models a nonempty `POLYMARKET_PRIVATE_KEY`; `probe` the
balance reply when a client is configured. Switching to LIVE fails only
without a key; the mode is set to LIVE *before* the balance probe, whose
failure is tolerated (cash simply not synced). Switching to PAPER always
succeeds. Returns the C++ `bool` and the new state. -/
def set_trading_mode (env_key : Bool) (probe : BalanceResult)
    (mode : TradingMode) (s : EngineState) : Bool × EngineState :=
  match mode with
  | TradingMode.LIVE =>
    if env_key = false then (false, s)
    else
      let s1 := { s with trading_mode := TradingMode.LIVE }
      if s.has_client then
        if probe.success then (true, { s1 with cash := probe.balance })
        else (true, s1)
      else (true, s1)
  | TradingMode.PAPER =>
    (true, { s with trading_mode := TradingMode.PAPER })

/-- `TradingEngine::reset_paper_trading` (`trading_engine.cpp:705-721`):
unconditionally force PAPER mode, cash 1000, zero realized PnL, and clear
position, history and the last completed cycle. There is no LIVE-mode
guard in this variant of the engine. -/
def reset_paper_trading (s : EngineState) : EngineState :=
  { s with
    trading_mode := TradingMode.PAPER
    cash := 1000
    realized_pnl := 0
    current_position := none
    trade_history := []
    last_completed_cycle := {} }

/-! ## Price-stream adapter: the full-book-snapshot parsing of
`WebSocketPriceStream::read_loop` (`websocket_client.cpp:229-301`). -/

/-- A fragment of nlohmann JSON sufficient for the inbound shapes. -/
inductive Json where
  | jstr : String → Json
  | jnum : ℚ → Json
  | jbool : Bool → Json
  | jnull : Json
  | jarr : List Json → Json
  | jobj : List (String × Json) → Json

/-- Object field lookup, `j["k"]` / `j.contains("k")`. -/
def jlookup (fields : List (String × Json)) (k : String) : Option Json :=
  match fields with
  | [] => none
  | (k0, v) :: rest => if k0 = k then some v else jlookup rest k

/-- `.get<std::string>()`: `some` on a JSON string, `none` models the
`nlohmann::json::type_error` thrown on any other type. -/
def j_get_string : Json → Option String
  | Json.jstr s => some s
  | _ => none

/-- Model of `std::stod` on decimal strings: optional sign, integer part,
optional fractional part; trailing characters are ignored; `none` models
the `std::invalid_argument` thrown when no digits can be consumed. -/
def parse_decimal (s : String) : Option ℚ :=
  let sr : Bool × List Char :=
    match s.data with
    | '-' :: rest => (true, rest)
    | '+' :: rest => (false, rest)
    | cs => (false, cs)
  let ip := sr.2.takeWhile Char.isDigit
  let rest1 := sr.2.drop ip.length
  let frac : List Char :=
    match rest1 with
    | '.' :: r2 => r2.takeWhile Char.isDigit
    | _ => []
  if ip.isEmpty ∧ frac.isEmpty then none
  else
    let mag : ℚ :=
      (digitsToNat ip : ℚ) + (digitsToNat frac : ℚ) / (10 : ℚ) ^ frac.length
    some (if sr.1 then -mag else mag)

/-- The per-level loop of the snapshot parser
(`websocket_client.cpp:238-258`): a level missing `price` or `size` (or not
an object) is skipped; on a level that has both, each scalar goes through
`get<std::string>` then `stod`, and a thrown type/conversion error
(`Except.error`) aborts the whole message. -/
def parse_levels (levels : List Json) : Except Unit (List (ℚ × ℚ)) :=
  match levels with
  | [] => Except.ok []
  | level :: rest =>
    match level with
    | Json.jobj fields =>
      match jlookup fields "price", jlookup fields "size" with
      | some pj, some sj =>
        match j_get_string pj with
        | none => Except.error ()
        | some ps =>
          match parse_decimal ps with
          | none => Except.error ()
          | some p =>
            match j_get_string sj with
            | none => Except.error ()
            | some ss =>
              match parse_decimal ss with
              | none => Except.error ()
              | some sz =>
                match parse_levels rest with
                | Except.error e => Except.error e
                | Except.ok tl => Except.ok ((p, sz) :: tl)
      | _, _ => parse_levels rest
    | _ => parse_levels rest

/-- The `OrderbookUpdate` event emitted to the engine callback. -/
structure OrderbookUpdate where
  token_id : String
  bids : List (ℚ × ℚ)
  asks : List (ℚ × ℚ)
deriving Repr, DecidableEq

/-- Parse one full-book snapshot object (the body shared by the array
branch and the single-object branch, `websocket_client.cpp:233-267` and
`270-301`): requires `asset_id` plus `bids` or `asks`; extracts ALL ask
then bid levels; the callback fires only when some level survived.
`Except.error` models an exception escaping this item;
`Except.ok none` means the item did not match the shape or produced an
empty update (no callback). -/
def parse_snapshot_item (item : Json) : Except Unit (Option OrderbookUpdate) :=
  match item with
  | Json.jobj fields =>
    match jlookup fields "asset_id" with
    | none => Except.ok none
    | some aj =>
      if (jlookup fields "bids").isSome ∨ (jlookup fields "asks").isSome then
        match j_get_string aj with
        | none => Except.error ()
        | some tid =>
          let asksJ : List Json :=
            match jlookup fields "asks" with
            | some (Json.jarr l) => l
            | _ => []
          let bidsJ : List Json :=
            match jlookup fields "bids" with
            | some (Json.jarr l) => l
            | _ => []
          match parse_levels asksJ with
          | Except.error e => Except.error e
          | Except.ok asks =>
            match parse_levels bidsJ with
            | Except.error e => Except.error e
            | Except.ok bids =>
              if asks.isEmpty ∧ bids.isEmpty then Except.ok none
              else Except.ok (some { token_id := tid, bids := bids, asks := asks })
      else Except.ok none
  | _ => Except.ok none

/-- The array branch (`websocket_client.cpp:230-267`): items are processed
in order, each matching item firing its callback inside the loop; an
exception thrown by an item discards it and every later item, but the
callbacks already fired stand. Returns the emitted updates. -/
def handle_array_items (items : List Json) : List OrderbookUpdate :=
  match items with
  | [] => []
  | item :: rest =>
    match parse_snapshot_item item with
    | Except.error _ => []
    | Except.ok none => handle_array_items rest
    | Except.ok (some u) => u :: handle_array_items rest

/-- The full-book dispatch of `read_loop` restricted to the snapshot
shapes of the spec's §4.3 (1) and (3): a non-empty array of snapshot
objects, or a single object carrying `asset_id` with `bids`/`asks` and no
`price_changes`. Returns every `OrderbookUpdate` handed to the engine
callback for the message; a thrown `nlohmann::json::exception` is caught
at the message level (`websocket_client.cpp:451-453`), dropping the rest
of the message. -/
def handle_book_message (j : Json) : List OrderbookUpdate :=
  match j with
  | Json.jarr items =>
    if items.isEmpty then [] else handle_array_items items
  | Json.jobj fields =>
    if (jlookup fields "asset_id").isSome ∧
       ((jlookup fields "bids").isSome ∨ (jlookup fields "asks").isSome) ∧
       (jlookup fields "price_changes").isNone then
      match parse_snapshot_item (Json.jobj fields) with
      | Except.error _ => []
      | Except.ok none => []
      | Except.ok (some u) => [u]
    else []
  | _ => []

/-! ## Helper definitions for the theorems: concrete states and shared
lemmas. -/

/-- A price level `{price, size}` whose scalars arrive as JSON strings. -/
def mk_str_level (pr : String × String) : Json :=
  Json.jobj [("price", Json.jstr pr.1), ("size", Json.jstr pr.2)]

/-- Installing an entry makes it the one the lookup finds. -/
theorem assoc_find_set (l : List (String × MarketState)) (k : String)
    (v : MarketState) : assoc_find (assoc_set l k v) k = some v := by
  induction l with
  | nil => simp [assoc_set, assoc_find]
  | cons p rest ih =>
    obtain ⟨k0, v0⟩ := p
    by_cases h : k0 = k <;> simp [assoc_set, assoc_find, h, ih]

/-- String-scalar levels all parse, in order, none dropped. -/
theorem parse_levels_all_strings (lvls : List (String × String))
    (h : ∀ pr ∈ lvls,
      (parse_decimal pr.1).isSome ∧ (parse_decimal pr.2).isSome) :
    parse_levels (lvls.map mk_str_level) =
      Except.ok (lvls.map fun pr =>
        ((parse_decimal pr.1).getD 0, (parse_decimal pr.2).getD 0)) := by
  induction lvls with
  | nil => rfl
  | cons pr rest ih =>
    obtain ⟨h1, h2⟩ := h pr (List.mem_cons_self _ _)
    obtain ⟨p, hep⟩ := Option.isSome_iff_exists.mp h1
    obtain ⟨q, heq⟩ := Option.isSome_iff_exists.mp h2
    have ih' := ih (fun x hx => h x (List.mem_cons_of_mem _ hx))
    simp [mk_str_level, parse_levels, jlookup, j_get_string, hep, heq, ih']

/-- The market of the happy-cycle scenario: UP asks at 0.66, DOWN asks at
0.60, slug-encoded window start 900. -/
def C1market : MarketState :=
  { slug := "btc-updown-15m-900", up_token_id := "U1", down_token_id := "D1",
    up_orderbook := { bids := [], asks := [(66/100, 50)], timestamp := 0 },
    down_orderbook := { bids := [], asks := [(3/5, 50)], timestamp := 0 },
    last_update := 0 }

/-- An open leg-1 position: UP, 10 shares at 0.35. -/
def C1pos : Position :=
  { market_slug := "btc-updown-15m-900", side := "UP", shares := 10,
    avg_cost := 7/20, total_cost := 7/2, trades := [] }

/-- Engine state holding the happy-cycle market with the leg-1 position
open and cash 996.50. -/
def C1state : EngineState :=
  { cash := 1993/2,
    markets := [("btc-updown-15m-900", C1market)],
    active_market_slug := "btc-updown-15m-900",
    current_position := some C1pos }

/-- State with an open position, used to exercise the leg-2 paper trade. -/
def C2state : EngineState := { current_position := some C1pos }

/-- A finished sample trade for history contents. -/
def C6trade : Trade :=
  { id := "paper_1", market_slug := "btc-updown-15m-900", leg := 1,
    side := "UP", token_id := "U1", shares := 10, price := 7/20,
    cost := 7/2, fee := 0, pnl := 0, is_live := false, timestamp := 1790 }

/-- A LIVE-mode engine with non-default portfolio state. -/
def C6state : EngineState :=
  { cash := 500, realized_pnl := -3, trading_mode := TradingMode.LIVE,
    current_position := some C1pos, trade_history := [C6trade],
    last_completed_cycle := { status := "complete" } }

/-- A failed venue balance probe. -/
def C7probe : BalanceResult :=
  { success := false, balance := 0, error := "balance fetch failed" }

/-- A PAPER-mode engine with a Polymarket client configured. -/
def C7state : EngineState := { has_client := true }

/-- A full-book snapshot message whose single ask level carries its price
and size as JSON numbers rather than strings. -/
def C8msg : Json :=
  Json.jobj
    [("asset_id", Json.jstr "T1"),
     ("asks", Json.jarr
        [Json.jobj [("price", Json.jnum (1/2)), ("size", Json.jnum 10)]]),
     ("bids", Json.jarr [])]

/-- A LIVE-mode engine with no Polymarket client configured. -/
def C9state : EngineState :=
  { trading_mode := TradingMode.LIVE, has_client := false }

/-! ## Claim theorems. -/

/-- C1: on every successful leg-2 hedge executed while a position is open
(paper path, as routed by `process_market`), the cash afterwards equals
cash before minus the hedge trade's cost (position shares times hedge
price) plus the position's shares, and `realized_pnl` increases by exactly
`(1.0 - avg_cost - hedge_price) * shares`. -/
theorem C1_hedge_accounting (now : ℤ) (res : OrderResult) (slug : String)
    (s : EngineState) (market : MarketState) (pos : Position) (hp : ℚ)
    (hmode : s.trading_mode = TradingMode.PAPER)
    (hfind : assoc_find s.markets slug = some market)
    (hwin : ¬(900 - (now - slug_start_time slug) < 0 ∨
              900 - (now - slug_start_time slug) > s.config.dump_window_sec))
    (hpos : s.current_position = some pos)
    (hslug : pos.market_slug = slug)
    (hhedge : should_hedge s.config pos market = some hp) :
    (process_market now res slug s).cash =
      s.cash - pos.shares * hp + pos.shares ∧
    (process_market now res slug s).realized_pnl =
      s.realized_pnl + (1 - pos.avg_cost - hp) * pos.shares := by
  have hlive : ¬(s.trading_mode = TradingMode.LIVE ∧ s.has_client = true) := by
    simp [hmode]
  simp only [process_market, hfind]
  rw [if_neg hwin]
  simp only [hpos]
  rw [if_pos hslug]
  simp only [hhedge]
  simp only [execute_trade, if_neg hlive]
  simp only [execute_paper_trade, hpos]
  simp

/-- C1 witness: the spec's happy-cycle scenario. At wall time 1790 on the
window-900 market, the open UP 10 @ 0.35 position hedges at DOWN ask 0.60:
cash 996.50 − 6.00 + 10 and realized pnl +0.50. -/
theorem C1_witness :
    (process_market 1790 {} "btc-updown-15m-900" C1state).cash =
      C1state.cash - C1pos.shares * (3/5) + C1pos.shares ∧
    (process_market 1790 {} "btc-updown-15m-900" C1state).realized_pnl =
      C1state.realized_pnl + (1 - C1pos.avg_cost - 3/5) * C1pos.shares :=
  C1_hedge_accounting 1790 {} "btc-updown-15m-900" C1state C1market C1pos
    (3/5) rfl rfl (by decide) rfl rfl
    (by norm_num [should_hedge, get_best_ask, C1pos, C1market, C1state])

/-- C2 (code bug): the leg-2 paper trade is pushed into `trade_history_`
*before* its `pnl` field is assigned (`trade_history_.push_back(trade)` at
`trading_engine.cpp:446` copies the trade; `trade.pnl = profit` at line
472 mutates only the local), so the trade stored in history carries
`pnl = 0` even though the profit formula gives 0.50 here — more than 1e-9
away — while only the returned (otherwise unused) copy carries it. -/
theorem C2_history_pnl_zero :
    ((execute_paper_trade 1790 "btc-updown-15m-900" "DOWN" "D1" 10 (3/5)
        C2state).2.trade_history.head?).map Trade.pnl = some 0 ∧
    ((execute_paper_trade 1790 "btc-updown-15m-900" "DOWN" "D1" 10 (3/5)
        C2state).2.trade_history.head?).map Trade.leg = some 2 ∧
    (execute_paper_trade 1790 "btc-updown-15m-900" "DOWN" "D1" 10 (3/5)
        C2state).1.pnl = (1 - C1pos.avg_cost - 3/5) * 10 ∧
    (1 - C1pos.avg_cost - 3/5) * 10 = 1/2 ∧
    (1/2 : ℚ) - 0 > 1/1000000000 :=
  ⟨rfl, rfl, rfl, by norm_num [C1pos], by norm_num⟩

/-- C3: `set_market` with a new slug while a position is open leaves
exactly the one new market entry, drops the position, freezes an
`incomplete` cycle carrying the old leg-1 data, and debits `realized_pnl`
by the old position's `total_cost`. -/
theorem C3_rotation_abandons_cycle (now : ℤ) (slug up down : String)
    (s : EngineState) (pos : Position)
    (hpos : s.current_position = some pos)
    (hneq : s.active_market_slug ≠ slug) :
    (set_market now slug up down s).markets =
      [(slug, { slug := slug, up_token_id := up, down_token_id := down,
                up_orderbook := emptyBook, down_orderbook := emptyBook,
                last_update := now })] ∧
    (set_market now slug up down s).current_position = none ∧
    (set_market now slug up down s).last_completed_cycle.status =
      "incomplete" ∧
    (set_market now slug up down s).last_completed_cycle.leg1_side =
      pos.side ∧
    (set_market now slug up down s).last_completed_cycle.leg1_price =
      pos.avg_cost ∧
    (set_market now slug up down s).last_completed_cycle.leg1_shares =
      pos.shares ∧
    (set_market now slug up down s).last_completed_cycle.total_cost =
      pos.total_cost ∧
    (set_market now slug up down s).realized_pnl =
      s.realized_pnl - pos.total_cost := by
  simp [set_market, hpos, hneq, assoc_set]

/-- C3 witness: rotating from the window-900 market to the window-1800
market with the UP 10 @ 0.35 position open. -/
theorem C3_witness :
    (set_market 1805 "btc-updown-15m-1800" "U2" "D2" C1state).markets =
      [("btc-updown-15m-1800",
        { slug := "btc-updown-15m-1800", up_token_id := "U2",
          down_token_id := "D2", up_orderbook := emptyBook,
          down_orderbook := emptyBook, last_update := 1805 })] ∧
    (set_market 1805 "btc-updown-15m-1800" "U2" "D2"
        C1state).current_position = none ∧
    (set_market 1805 "btc-updown-15m-1800" "U2" "D2"
        C1state).last_completed_cycle.status = "incomplete" ∧
    (set_market 1805 "btc-updown-15m-1800" "U2" "D2"
        C1state).last_completed_cycle.leg1_side = C1pos.side ∧
    (set_market 1805 "btc-updown-15m-1800" "U2" "D2"
        C1state).last_completed_cycle.leg1_price = C1pos.avg_cost ∧
    (set_market 1805 "btc-updown-15m-1800" "U2" "D2"
        C1state).last_completed_cycle.leg1_shares = C1pos.shares ∧
    (set_market 1805 "btc-updown-15m-1800" "U2" "D2"
        C1state).last_completed_cycle.total_cost = C1pos.total_cost ∧
    (set_market 1805 "btc-updown-15m-1800" "U2" "D2" C1state).realized_pnl =
      C1state.realized_pnl - C1pos.total_cost :=
  C3_rotation_abandons_cycle 1805 "btc-updown-15m-1800" "U2" "D2" C1state
    C1pos rfl (by decide)

/-- C4: when `time_left = 900 - (now - W)` computed from the slug-encoded
window start `W` is negative or exceeds `dump_window_sec`, evaluating the
market is a complete no-op — the state (cash, position, realized pnl,
history, markets) is returned unchanged, so no entry or hedge trade is
executed outside the trading window. -/
theorem C4_trading_window_gate (now : ℤ) (res : OrderResult) (slug : String)
    (s : EngineState)
    (h : 900 - (now - slug_start_time slug) < 0 ∨
         900 - (now - slug_start_time slug) > s.config.dump_window_sec) :
    process_market now res slug s = s := by
  cases hm : assoc_find s.markets slug with
  | none => simp [process_market, hm]
  | some market =>
    simp only [process_market, hm]
    rw [if_pos h]

/-- C4 witness: at wall time 2000 the window-900 market is 200 s past its
end (`time_left = -200 < 0`); processing it changes nothing. -/
theorem C4_witness :
    process_market 2000 {} "btc-updown-15m-900" C1state = C1state :=
  C4_trading_window_gate 2000 {} "btc-updown-15m-900" C1state (by decide)

/-- C5 counterexample: calling `set_market` again with the *same* slug
does NOT leave the stored orderbooks untouched — the C++ unconditionally
reassigns `markets_[slug]` a fresh `MarketState` with empty books
(`trading_engine.cpp:75-82`), so the non-empty UP book of the active
market is wiped. -/
theorem C5_counterexample :
    (assoc_find (set_market 7 "btc-updown-15m-900" "U1" "D1" C1state).markets
        "btc-updown-15m-900").map MarketState.up_orderbook ≠
      (assoc_find C1state.markets "btc-updown-15m-900").map
        MarketState.up_orderbook := by
  decide

/-- C5 as amended: a second `set_market` with the same slug touches only
the market store — cash, pnl, position, history, cycle and mode are
untouched — but it replaces the stored entry wholesale: token IDs are
refreshed AND both orderbooks are reset to empty with `last_update`
stamped to now. -/
theorem C5_same_slug_resets_books (now : ℤ) (slug up down : String)
    (s : EngineState) (hsame : s.active_market_slug = slug) :
    set_market now slug up down s =
      { s with
        active_market_slug := slug
        markets := assoc_set s.markets slug
          { slug := slug, up_token_id := up, down_token_id := down,
            up_orderbook := emptyBook, down_orderbook := emptyBook,
            last_update := now } } ∧
    assoc_find (set_market now slug up down s).markets slug =
      some { slug := slug, up_token_id := up, down_token_id := down,
             up_orderbook := emptyBook, down_orderbook := emptyBook,
             last_update := now } := by
  constructor
  · simp [set_market, hsame]
  · simp [set_market, hsame, assoc_find_set]

/-- C5 witness: re-setting the active window-900 market refreshes the
entry and leaves the rest of the engine state alone. -/
theorem C5_witness :
    set_market 7 "btc-updown-15m-900" "U1" "D1" C1state =
      { C1state with
        active_market_slug := "btc-updown-15m-900"
        markets := assoc_set C1state.markets "btc-updown-15m-900"
          { slug := "btc-updown-15m-900", up_token_id := "U1",
            down_token_id := "D1", up_orderbook := emptyBook,
            down_orderbook := emptyBook, last_update := 7 } } ∧
    assoc_find (set_market 7 "btc-updown-15m-900" "U1" "D1" C1state).markets
        "btc-updown-15m-900" =
      some { slug := "btc-updown-15m-900", up_token_id := "U1",
             down_token_id := "D1", up_orderbook := emptyBook,
             down_orderbook := emptyBook, last_update := 7 } :=
  C5_same_slug_resets_books 7 "btc-updown-15m-900" "U1" "D1" C1state rfl

/-- C6 counterexample: `reset_paper_trading` issued in LIVE mode is NOT
rejected — the engine resets anyway: mode is forced to PAPER, cash 500 is
overwritten with 1000, and the trade history is cleared. -/
theorem C6_counterexample :
    C6state.trading_mode = TradingMode.LIVE ∧
    (reset_paper_trading C6state).trading_mode = TradingMode.PAPER ∧
    (reset_paper_trading C6state).cash = 1000 ∧
    C6state.cash = 500 ∧ (1000 : ℚ) ≠ 500 ∧
    (reset_paper_trading C6state).trade_history = [] ∧
    C6state.trade_history ≠ [] :=
  ⟨rfl, rfl, rfl, rfl, by norm_num, rfl, by simp [C6state]⟩

/-- C6 as amended: the engine-level reset succeeds unconditionally in
every mode — there is no LIVE-mode rejection in this engine — and it sets
cash to 1000, zeroes realized pnl, clears position, history and the last
completed cycle, and forces the mode to Simulated (PAPER). -/
theorem C6_reset_unconditional (s : EngineState) :
    reset_paper_trading s =
      { s with
        trading_mode := TradingMode.PAPER
        cash := 1000
        realized_pnl := 0
        current_position := none
        trade_history := []
        last_completed_cycle := {} } := rfl

/-- C7 counterexample: with a private key configured and the venue balance
probe failing, `set_trading_mode(LIVE)` still reports success and the mode
is switched to LIVE (cash merely stays unsynced) — the switch does not
fail and the mode does not remain Simulated. -/
theorem C7_counterexample :
    (set_trading_mode true C7probe TradingMode.LIVE C7state).1 = true ∧
    (set_trading_mode true C7probe TradingMode.LIVE
        C7state).2.trading_mode = TradingMode.LIVE ∧
    (set_trading_mode true C7probe TradingMode.LIVE C7state).2.cash =
      C7state.cash ∧
    C7probe.success = false :=
  ⟨rfl, rfl, rfl, rfl⟩

/-- C7 as amended: switching to LIVE fails only when no private key is
configured (state unchanged); with a key the switch always succeeds and
the mode becomes LIVE, the cash being copied from the venue balance only
when a client is configured and the probe succeeds, and left unchanged
otherwise. -/
theorem C7_live_switch_ignores_probe (env_key : Bool)
    (probe : BalanceResult) (s : EngineState) :
    set_trading_mode env_key probe TradingMode.LIVE s =
      if env_key = false then (false, s)
      else (true,
        { s with
          trading_mode := TradingMode.LIVE
          cash := if s.has_client ∧ probe.success = true then probe.balance
                  else s.cash }) := by
  cases env_key with
  | false => rfl
  | true =>
    cases hc : s.has_client with
    | false => simp [set_trading_mode, hc]
    | true =>
      cases hp : probe.success with
      | false => simp [set_trading_mode, hc, hp]
      | true => simp [set_trading_mode, hc, hp]

/-- C8 counterexample: a full-book snapshot message whose level scalars
are JSON numbers is NOT parsed — `get<std::string>()` throws, the message
is dropped, and no `OrderbookUpdate` is emitted at all, contrary to the
claim that numeric scalars are accepted. -/
theorem C8_counterexample : handle_book_message C8msg = [] := rfl

/-- C8 as amended: for a full-book snapshot message whose price and size
scalars are all JSON *strings* (parseable decimals), every level is parsed
into the emitted update, in order and without truncation; a numeric scalar
instead raises a `json::type_error` that drops the message without
emitting its snapshot. -/
theorem C8_string_levels_parsed (tid : String)
    (asks bids : List (String × String))
    (h : ∀ pr ∈ asks ++ bids,
      (parse_decimal pr.1).isSome ∧ (parse_decimal pr.2).isSome)
    (hne : asks ≠ [] ∨ bids ≠ []) :
    handle_book_message (Json.jobj
      [("asset_id", Json.jstr tid),
       ("asks", Json.jarr (asks.map mk_str_level)),
       ("bids", Json.jarr (bids.map mk_str_level))]) =
      [{ token_id := tid,
         bids := bids.map fun pr =>
           ((parse_decimal pr.1).getD 0, (parse_decimal pr.2).getD 0),
         asks := asks.map fun pr =>
           ((parse_decimal pr.1).getD 0, (parse_decimal pr.2).getD 0) }] := by
  have hasks := parse_levels_all_strings asks
    (fun x hx => h x (List.mem_append_left _ hx))
  have hbids := parse_levels_all_strings bids
    (fun x hx => h x (List.mem_append_right _ hx))
  simp [handle_book_message, parse_snapshot_item, jlookup, j_get_string,
    hasks, hbids]
  rcases hne with hne | hne <;> simp [hne]

/-- C8 witness: a two-sided string-scalar snapshot for token T1 parses
both levels. -/
theorem C8_witness :
    handle_book_message (Json.jobj
      [("asset_id", Json.jstr "T1"),
       ("asks", Json.jarr ([("0.55", "12")].map mk_str_level)),
       ("bids", Json.jarr ([("0.4", "7")].map mk_str_level))]) =
      [{ token_id := "T1",
         bids := [("0.4", "7")].map fun pr =>
           ((parse_decimal pr.1).getD 0, (parse_decimal pr.2).getD 0),
         asks := [("0.55", "12")].map fun pr =>
           ((parse_decimal pr.1).getD 0, (parse_decimal pr.2).getD 0) }] :=
  C8_string_levels_parsed "T1" [("0.55", "12")] [("0.4", "7")]
    (by decide) (by decide)

/-- C9: in LIVE mode without a Polymarket client, `execute_trade` does not
fail — it silently takes the paper path, returning the paper trade
(`paper_`-prefixed id, `is_live = false`) and mutating cash and realized
pnl exactly as the simulated path does. -/
theorem C9_live_no_client_paper_fallback (now : ℤ) (res : OrderResult)
    (slug side token : String) (shares price : ℚ) (s : EngineState)
    (hmode : s.trading_mode = TradingMode.LIVE)
    (hclient : s.has_client = false) :
    execute_trade now res slug side token shares price s =
      (some (execute_paper_trade now slug side token shares price s).1,
       (execute_paper_trade now slug side token shares price s).2) ∧
    (execute_paper_trade now slug side token shares price s).1.is_live =
      false ∧
    (execute_paper_trade now slug side token shares price s).1.id =
      "paper_" ++ toString now := by
  refine ⟨by simp [execute_trade, hclient], ?_, ?_⟩ <;>
    cases hcp : s.current_position <;> simp [execute_paper_trade, hcp]

/-- C9 witness: a LIVE-mode engine without a client executes an UP entry
as a paper trade. -/
theorem C9_witness :
    execute_trade 42 {} "btc-updown-15m-900" "UP" "U1" 10 (3/10) C9state =
      (some (execute_paper_trade 42 "btc-updown-15m-900" "UP" "U1" 10
        (3/10) C9state).1,
       (execute_paper_trade 42 "btc-updown-15m-900" "UP" "U1" 10 (3/10)
        C9state).2) ∧
    (execute_paper_trade 42 "btc-updown-15m-900" "UP" "U1" 10 (3/10)
        C9state).1.is_live = false ∧
    (execute_paper_trade 42 "btc-updown-15m-900" "UP" "U1" 10 (3/10)
        C9state).1.id = "paper_" ++ toString (42 : ℤ) :=
  C9_live_no_client_paper_fallback 42 {} "btc-updown-15m-900" "UP" "U1" 10
    (3/10) C9state rfl rfl

/-- C10: while the engine is stopped (`running_ = false`), an orderbook
event is a complete no-op: the state — market books, last-update stamps,
cash, position, realized pnl and history — is returned unchanged and no
trade is executed. -/
theorem C10_stopped_engine_noop (now : ℤ) (res : OrderResult)
    (token_id : String) (snapshot : OrderbookSnapshot) (s : EngineState)
    (h : s.running = false) :
    on_orderbook_update now res token_id snapshot s = s := by
  simp [on_orderbook_update, h]

/-- C10 witness: a snapshot for the active market's UP token delivered to
the stopped engine changes nothing. -/
theorem C10_witness :
    on_orderbook_update 1790 {} "U1"
      { bids := [], asks := [(1/4, 5)], timestamp := 1790 } C1state =
      C1state :=
  C10_stopped_engine_noop 1790 {} "U1"
    { bids := [], asks := [(1/4, 5)], timestamp := 1790 } C1state rfl

end Poly
